import Mathlib

/-
Verification development for the gesture-controlled particle-forest
application.  The definitions below are a shallow embedding of the
TypeScript/GLSL source: the state-blend controller and gesture logic are
modelled over ℚ (JS numbers carry exact decimal literals here), and the
vertex shader, camera rig and archetype generator are modelled over ℝ.
-/

/- ============================================================
   Data model: discrete gesture state (types.ts)
   ============================================================ -/

inductive GestureState where
  | IDLE
  | TREES
  | SPREAD
  | RAIN
  | STORM
deriving DecidableEq, Repr, Fintype

/- ============================================================
   State-blend controller (CosmicParticles frame loop)
   ============================================================ -/

/-- THREE.MathUtils.lerp over ℚ: `(1 - t) * x + t * y`. -/
def lerpQ (x y t : ℚ) : ℚ := (1 - t) * x + t * y

/-- The four per-frame ratio targets. -/
structure RatioTargets where
  form : ℚ
  spread : ℚ
  rain : ℚ
  wave : ℚ
deriving DecidableEq, Repr

/-- Ratio targets derived from the discrete state each frame
(CosmicParticles useFrame, the state transition logic). -/
def frameTargets (g : GestureState) (isRaining isStormy : Bool) : RatioTargets :=
  let fs : ℚ × ℚ :=
    if g = GestureState.TREES ∨ isStormy then (1, 0)
    else if g = GestureState.SPREAD then (1, 1)
    else (0, 0)
  { form := fs.1
    spread := fs.2
    rain := if isRaining then 1 else 0
    wave := if isStormy then 1 else 0 }

/-- The four smoothed ratio uniforms. -/
structure RatioState where
  form : ℚ
  spread : ℚ
  rain : ℚ
  wave : ℚ
deriving DecidableEq, Repr

/-- Initial uniform values (uFormRatio, uSpreadRatio, uRainRatio,
uWaveRatio all start at value 0). -/
def initRatioState : RatioState := ⟨0, 0, 0, 0⟩

/-- One frame of the ratio smoothing: each uniform is lerped toward its
target with fixed factor dt = 0.04. -/
def stepRatioState (r : RatioState) (g : GestureState) (isRaining isStormy : Bool) :
    RatioState :=
  let t := frameTargets g isRaining isStormy
  { form := lerpQ r.form t.form 0.04
    spread := lerpQ r.spread t.spread 0.04
    rain := lerpQ r.rain t.rain 0.04
    wave := lerpQ r.wave t.wave 0.04 }

/-- Run the frame loop from the initial uniform values over a list of
per-frame inputs (gesture state, isRaining, isStormy). -/
def runFrames (frames : List (GestureState × Bool × Bool)) : RatioState :=
  frames.foldl (fun r f => stepRatioState r f.1 f.2.1 f.2.2) initRatioState

/-- All four ratio targets lie in [0,1]. -/
def RatioTargets.inRange (t : RatioTargets) : Prop :=
  0 ≤ t.form ∧ t.form ≤ 1 ∧ 0 ≤ t.spread ∧ t.spread ≤ 1 ∧
    0 ≤ t.rain ∧ t.rain ≤ 1 ∧ 0 ≤ t.wave ∧ t.wave ≤ 1

instance (t : RatioTargets) : Decidable t.inRange := by
  unfold RatioTargets.inRange; infer_instance

/-- All four smoothed ratios lie in [0,1]. -/
def RatioState.inRange (r : RatioState) : Prop :=
  0 ≤ r.form ∧ r.form ≤ 1 ∧ 0 ≤ r.spread ∧ r.spread ≤ 1 ∧
    0 ≤ r.rain ∧ r.rain ≤ 1 ∧ 0 ≤ r.wave ∧ r.wave ≤ 1

instance (r : RatioState) : Decidable r.inRange := by
  unfold RatioState.inRange; infer_instance

/-- Modelled from the spec: the clamp-to-[0,1] that §4.3/§7 say is applied
to ratio inputs before use (no such clamp exists in the source; this
definition follows the spec's words for comparison). -/
def specClamp01 (x : ℚ) : ℚ := max 0 (min 1 x)

/- ============================================================
   Gesture classification handling (App + GestureDetector)
   ============================================================ -/

/-- The app-level state mutated by gesture events. -/
structure AppState where
  gestureState : GestureState
  isRaining : Bool
  isStormy : Bool
  detectedGestureName : String
deriving DecidableEq, Repr

/-- App.tsx useState initial values. -/
def initialAppState : AppState :=
  ⟨GestureState.IDLE, false, false, "None"⟩

/-- handleGestureLogic from GestureDetector: the gesture-name switch. -/
def handleGestureLogic (s : AppState) (gestureName : String) : AppState :=
  if gestureName = "Closed_Fist" then
    { s with gestureState := GestureState.TREES }
  else if gestureName = "Open_Palm" then
    { s with gestureState := GestureState.SPREAD }
  else if gestureName = "Victory" then
    { s with isRaining := true }
  else if gestureName = "Thumb_Up" then
    { s with isStormy := true }
  else if gestureName = "Pointing_Up" then
    { s with gestureState := GestureState.IDLE, isRaining := false, isStormy := false }
  else s

/-- predictWebcam's gesture branch: a classification with score strictly
above 0.5 reports its name and applies the mapped effect; otherwise the
reported label is "None" and nothing changes. -/
def processGestureResult (s : AppState) (name : String) (score : ℚ) : AppState :=
  if score > 0.5 then
    handleGestureLogic { s with detectedGestureName := name } name
  else
    { s with detectedGestureName := "None" }

/-- Fold a sequence of classification events through the app state. -/
def processFrames (s : AppState) (events : List (String × ℚ)) : AppState :=
  events.foldl (fun st e => processGestureResult st e.1 e.2) s

/- ============================================================
   Hand-tracking adapter (predictWebcam, hand position logic)
   ============================================================ -/

noncomputable section

/-- One tracked hand exposed to the rest of the app. -/
structure HandPosition where
  x : ℝ
  y : ℝ
  active : Bool

/-- The two hand slots. -/
structure Hands where
  left : HandPosition
  right : HandPosition

/-- A mediapipe classification category (only categoryName is read). -/
structure Category where
  categoryName : String

/-- The reference landmark of a detected hand (the source reads
landmarks[9], the middle-finger knuckle, in normalized image
coordinates). -/
structure Landmark where
  x : ℝ
  y : ℝ

/-- Handedness resolution for the hand at a given index: the entry's
category name when the handedness entry exists and is non-empty,
otherwise the index-based fallback (index 0 ⇒ "Left", else "Right"). -/
def resolveHandedness (data : Option (List (List Category))) (index : ℕ) : String :=
  match data with
  | some hd =>
    if index < hd.length then
      match hd.getD index [] with
      | c :: _ => c.categoryName
      | [] => if index = 0 then "Left" else "Right"
    else
      if index = 0 then "Left" else "Right"
  | none => if index = 0 then "Left" else "Right"

/-- Convert one reference landmark to world units:
worldX = (0.5 - x) * 30, worldY = (0.5 - y) * 20. -/
def landmarkToHand (lm : Landmark) : HandPosition :=
  ⟨(0.5 - lm.x) * 30, (0.5 - lm.y) * 20, true⟩

/-- predictWebcam's hand-position tracking: start from two inactive
slots, then for each detected hand (in index order) write its world
position into the slot chosen by the resolved handedness ("Right" goes
to the right slot, anything else to the left slot). -/
def trackHandsAux (data : Option (List (List Category))) (hs : Hands) (index : ℕ) :
    List Landmark → Hands
  | [] => hs
  | lm :: rest =>
    let handData := landmarkToHand lm
    let hs :=
      if resolveHandedness data index = "Right" then
        { hs with right := handData }
      else
        { hs with left := handData }
    trackHandsAux data hs (index + 1) rest

/-- predictWebcam's hand-position tracking entry point. -/
def trackHands (data : Option (List (List Category))) (landmarkList : List Landmark) :
    Hands :=
  trackHandsAux data ⟨⟨0, 0, false⟩, ⟨0, 0, false⟩⟩ 0 landmarkList

/- ============================================================
   Camera rig (Experience.tsx, CameraRig useFrame)
   ============================================================ -/

/-- THREE.MathUtils.lerp over ℝ: `(1 - t) * x + t * y`. -/
def lerpR (x y t : ℝ) : ℝ := (1 - t) * x + t * y

/-- Spherical camera coordinates (three.js Spherical). -/
structure Spherical where
  radius : ℝ
  theta : ℝ
  phi : ℝ

/-- Sum of the x coordinates of the active hands. -/
def camSumX (hands : Hands) : ℝ :=
  (if hands.left.active then hands.left.x else 0) +
    (if hands.right.active then hands.right.x else 0)

/-- Sum of the y coordinates of the active hands. -/
def camSumY (hands : Hands) : ℝ :=
  (if hands.left.active then hands.left.y else 0) +
    (if hands.right.active then hands.right.y else 0)

/-- Number of active hands, as the JS number the source accumulates. -/
def camHandsCount (hands : Hands) : ℝ :=
  (if hands.left.active then 1 else 0) +
    (if hands.right.active then 1 else 0)

/-- Average x of the active hands. -/
def camAvgX (hands : Hands) : ℝ := camSumX hands / camHandsCount hands

/-- Average y of the active hands. -/
def camAvgY (hands : Hands) : ℝ := camSumY hands / camHandsCount hands

/-- Target azimuth: `(avgX / 15) * 1.5`. -/
def camTargetAzimuth (hands : Hands) : ℝ := (camAvgX hands / 15) * 1.5

/-- One CameraRig frame: when at least one hand is active, lerp the
spherical coordinates toward the hand-derived targets; otherwise leave
the camera untouched (OrbitControls owns it). -/
def cameraRigUpdate (hands : Hands) (g : GestureState) (delta : ℝ) (sph : Spherical) :
    Spherical :=
  if camHandsCount hands > 0 then
    let targetAzimuth := camTargetAzimuth hands
    let targetPolar0 := Real.pi / 2 - 0.2 - (camAvgY hands / 20) * 0.5
    let targetPolar := if g = GestureState.SPREAD then Real.pi / 2 - 1.0 else targetPolar0
    let targetRadius : ℝ := if g = GestureState.SPREAD then 45 else 25
    let zoomSpeed : ℝ := if g = GestureState.SPREAD then 1.0 else 2.0
    { radius := lerpR sph.radius targetRadius (delta * zoomSpeed)
      theta := lerpR sph.theta targetAzimuth (delta * 2.0)
      phi := lerpR sph.phi targetPolar (delta * 2.0) }
  else
    sph

/- ============================================================
   GLSL building blocks and 3-vectors
   ============================================================ -/

/-- A GLSL vec3 over ℝ. -/
structure Vec3 where
  x : ℝ
  y : ℝ
  z : ℝ

/-- Componentwise vector addition. -/
def Vec3.add (a b : Vec3) : Vec3 := ⟨a.x + b.x, a.y + b.y, a.z + b.z⟩

/-- Componentwise vector subtraction. -/
def Vec3.sub (a b : Vec3) : Vec3 := ⟨a.x - b.x, a.y - b.y, a.z - b.z⟩

/-- Vector scaled by a scalar. -/
def Vec3.scale (a : Vec3) (s : ℝ) : Vec3 := ⟨a.x * s, a.y * s, a.z * s⟩

/-- GLSL length of a vec3. -/
def Vec3.length (a : Vec3) : ℝ := Real.sqrt (a.x ^ 2 + a.y ^ 2 + a.z ^ 2)

/-- GLSL distance between two vec3. -/
def Vec3.dist (a b : Vec3) : ℝ := (a.sub b).length

/-- GLSL normalize: the vector scaled by the inverse of its length. -/
def Vec3.normalize (a : Vec3) : Vec3 := a.scale (1 / a.length)

/-- GLSL cross product. -/
def Vec3.cross (a b : Vec3) : Vec3 :=
  ⟨a.y * b.z - a.z * b.y, a.z * b.x - a.x * b.z, a.x * b.y - a.y * b.x⟩

/-- GLSL clamp of a scalar. -/
def glslClamp (x lo hi : ℝ) : ℝ := min (max x lo) hi

/-- GLSL mix (scalar linear interpolation): `x * (1 - a) + y * a`. -/
def glslMix (x y a : ℝ) : ℝ := x * (1 - a) + y * a

/-- GLSL mix on vec3, componentwise. -/
def Vec3.mix (p q : Vec3) (a : ℝ) : Vec3 :=
  ⟨glslMix p.x q.x a, glslMix p.y q.y a, glslMix p.z q.z a⟩

/-- GLSL step: 0 when `x < edge`, else 1. -/
def glslStep (edge x : ℝ) : ℝ := if x < edge then 0 else 1

/-- GLSL smoothstep with Hermite interpolation. -/
def glslSmoothstep (edge0 edge1 x : ℝ) : ℝ :=
  let t := glslClamp ((x - edge0) / (edge1 - edge0)) 0 1
  t * t * (3 - 2 * t)

/-- GLSL mod: `x - y * floor (x / y)`. -/
def glslMod (x y : ℝ) : ℝ := x - y * (⌊x / y⌋ : ℤ)

/-- GLSL two-argument atan, as the argument of the complex number
`x + y i` (range (-π, π]). -/
def glslAtan2 (y x : ℝ) : ℝ := Complex.arg ⟨x, y⟩

/- ============================================================
   Vertex shader position pipeline (CosmicParticles vertexShader)
   ============================================================ -/

/-- Per-vertex attributes of one particle. -/
structure VertexInput where
  position : Vec3
  aRandom : Vec3
  aTreePos : Vec3
  aIsLeaf : ℝ

/-- The shader uniforms the position pipeline reads. -/
structure ShaderUniforms where
  uTime : ℝ
  uFormRatio : ℝ
  uSpreadRatio : ℝ
  uRainRatio : ℝ
  uWaveRatio : ℝ
  uLeftHandPos : Vec3
  uLeftHandActive : ℝ
  uRightHandPos : Vec3
  uRightHandActive : ℝ

/-- Layers 1-2 of the shader: the tree target position after the wind
sway (when uFormRatio > 0.01) and the spreading-roots morph (when
uSpreadRatio > 0). -/
def shaderTarget (u : ShaderUniforms) (a : VertexInput) : Vec3 :=
  let target := a.aTreePos
  let target :=
    if u.uFormRatio > 0.01 then
      let swayIntensity : ℝ := if a.aIsLeaf > 0.5 then 0.5 else 0.1
      let swaySpeed : ℝ := 1.0
      let wind := Real.sin (u.uTime * swaySpeed + target.x * 0.5) * (target.y * 0.05)
      ⟨target.x + wind * swayIntensity * u.uFormRatio,
       target.y,
       target.z + Real.cos (u.uTime * swaySpeed * 0.8 + target.z * 0.5) *
         (target.y * 0.05) * swayIntensity * u.uFormRatio⟩
    else target
  let target :=
    if u.uSpreadRatio > 0 then
      if a.aIsLeaf > 0.5 then
        ⟨target.x + (target.x - 0.0) * 0.1 * u.uSpreadRatio,
         target.y + Real.sin (u.uTime * 2.0 + target.x) * 0.5 * u.uSpreadRatio,
         target.z + (target.z - 0.0) * 0.1 * u.uSpreadRatio⟩
      else
        let groundLevel := -5.0 + a.aRandom.y * 1.5
        let angle := glslAtan2 target.z target.x
        let dist := Real.sqrt (target.x ^ 2 + target.z ^ 2)
        let tendrilNoise :=
          Real.sin (angle * 12.0) + Real.sin (angle * 23.0 + a.aRandom.x * 10.0)
        let tendrilStrength := glslSmoothstep (-1.0) 1.0 tendrilNoise
        let expansionBase := 2.0 + u.uSpreadRatio * 15.0
        let jagged := 1.0 + tendrilStrength * 0.5 + a.aRandom.z * 0.5
        let newDist := dist * (1.0 + u.uSpreadRatio * 2.5) +
          expansionBase * jagged * u.uSpreadRatio
        let pulseY :=
          if u.uSpreadRatio > 0.8 then
            Real.sin (newDist * 0.5 - u.uTime * 5.0) * 0.5
          else 0
        let rootTarget : Vec3 :=
          ⟨Real.cos angle * newDist, groundLevel + pulseY, Real.sin angle * newDist⟩
        target.mix rootTarget u.uSpreadRatio
    else target
  target

/-- Layers 3-4 of the shader: the chaos→target blend followed by the
wave overlay (when uWaveRatio > 0). -/
def chaosWavePos (u : ShaderUniforms) (a : VertexInput) (target : Vec3) : Vec3 :=
  let pos := a.position
  let formationFactor := max u.uFormRatio u.uSpreadRatio
  let mixedPos := pos.mix target (glslSmoothstep 0.0 1.0 formationFactor)
  if u.uWaveRatio > 0 then
    let waveHeight := 0.5 + u.uWaveRatio * 2.0
    let waveSpeed := 1.0 + u.uWaveRatio * 3.0
    let wave := Real.sin (mixedPos.x * 0.5 + u.uTime * waveSpeed) *
      Real.cos (mixedPos.z * 0.3 + u.uTime * waveSpeed * 0.8)
    let isTreeForm := glslSmoothstep 0.2 0.8 u.uFormRatio
    let wavePosChaos : Vec3 := ⟨mixedPos.x, wave * waveHeight, mixedPos.z⟩
    let wavePosTree : Vec3 := ⟨mixedPos.x, mixedPos.y + wave * waveHeight, mixedPos.z⟩
    let targetWavePos := wavePosChaos.mix wavePosTree isTreeForm
    mixedPos.mix targetWavePos u.uWaveRatio
  else mixedPos

/-- Layer 5 of the shader: the rain override position (what the rain
branch assigns to mixedPos). It reads only the time, the stored jitter
and the sway/morph target column — never the chaos position, the wave
ratio or a prior layer's height. -/
def rainOverridePos (u : ShaderUniforms) (a : VertexInput) : Vec3 :=
  let target := shaderTarget u a
  let fallSpeed := 15.0 + a.aRandom.y * 10.0
  let yOffset := glslMod (u.uTime * fallSpeed) 40.0
  ⟨target.x + (a.aRandom.y - 0.5) * 30.0,
   20.0 - yOffset,
   target.z + (a.aRandom.z - 0.5) * 30.0⟩

/-- One hand's interaction displacement on a particle at mixedPos:
attraction plus swirl (swirlSign +1 for the left hand, -1 for the
right), smoothly falling off to zero at the interaction radius 8. -/
def handOffset (handPos : Vec3) (handActive swirlSign : ℝ) (mixedPos : Vec3) : Vec3 :=
  if handActive > 0.5 then
    let dist := mixedPos.dist handPos
    if dist < 8.0 then
      let factor := glslSmoothstep 8.0 0.0 dist
      let attraction := (handPos.sub mixedPos).scale 0.9
      let dir := (mixedPos.sub handPos).normalize
      let swirl := ((Vec3.mk 0.0 1.0 0.0).cross dir).scale 4.0
      ((attraction.add (swirl.scale swirlSign)).scale (factor * 0.6))
    else ⟨0, 0, 0⟩
  else ⟨0, 0, 0⟩

/-- Layer 6 of the shader: the summed interaction offset of both hands. -/
def interactOffsetTotal (u : ShaderUniforms) (mixedPos : Vec3) : Vec3 :=
  (handOffset u.uLeftHandPos u.uLeftHandActive 1.0 mixedPos).add
    (handOffset u.uRightHandPos u.uRightHandActive (-1.0) mixedPos)

/-- The full vertex-shader position: sway and root-morph target, the
chaos→target blend, the wave overlay, the rain override (for the
selected particles when uRainRatio > 0), then the hand interaction
offset added on top. -/
def vertexPosition (u : ShaderUniforms) (a : VertexInput) : Vec3 :=
  let target := shaderTarget u a
  let mixedPos := chaosWavePos u a target
  let isRain := glslStep 0.95 a.aRandom.x * u.uRainRatio
  let mixedPos := if isRain > 0 then rainOverridePos u a else mixedPos
  mixedPos.add (interactOffsetTotal u mixedPos)

/-- A rain-eligible demo particle: first jitter component 0.95 (top 5%),
at the origin in both coordinate spaces, trunk type. -/
def rainDemoParticle : VertexInput :=
  ⟨⟨0, 0, 0⟩, ⟨0.95, 0.5, 0.5⟩, ⟨0, 0, 0⟩, 0⟩

/-- Uniforms with full rain, no other layer and no active hand. -/
def rainDemoNoHand : ShaderUniforms :=
  ⟨0, 0, 0, 1, 0, ⟨0, 0, 0⟩, 0, ⟨0, 0, 0⟩, 0⟩

/-- The same uniforms with the left hand active one unit away from the
demo particle's rain position (0, 20, 0). -/
def rainDemoHand : ShaderUniforms :=
  ⟨0, 0, 0, 1, 0, ⟨-1, 20, 0⟩, 1, ⟨0, 0, 0⟩, 0⟩

/- ============================================================
   Particle archetype generator: trunk sampling (CosmicParticles)
   ============================================================ -/

/-- One tree archetype: center (x,z), height and scale. -/
structure TreeCenter where
  x : ℝ
  z : ℝ
  height : ℝ
  scale : ℝ

/-- The tapered trunk radius at normalized height hRatio:
lerp(0.7 * scale, 0.15 * scale, hRatio). -/
def trunkRadius (scale hRatio : ℝ) : ℝ :=
  lerpR (0.7 * scale) (0.15 * scale) hRatio

/-- The radial coordinate of a trunk particle: the square root of the
uniform draw times the current radius. -/
def trunkRadialSample (radiusRand currentRadius : ℝ) : ℝ :=
  Real.sqrt radiusRand * currentRadius

/-- A trunk particle's target position, as a function of the tree
archetype and the three uniform draws the source makes (normalized
height, angle fraction and radial draw). -/
def trunkPosition (tree : TreeCenter) (hRatio angleRand radiusRand : ℝ) : Vec3 :=
  let currentHeight := hRatio * tree.height
  let currentRadius := trunkRadius tree.scale hRatio
  let angle := angleRand * Real.pi * 2
  let rPos := trunkRadialSample radiusRand currentRadius
  ⟨tree.x + Real.cos angle * rPos,
   currentHeight - 5.0,
   tree.z + Real.sin angle * rPos⟩

end

/- ============================================================
   Helper lemmas
   ============================================================ -/

theorem lerpQ_bounds {x y : ℚ} (hx0 : 0 ≤ x) (hx1 : x ≤ 1) (hy0 : 0 ≤ y) (hy1 : y ≤ 1) :
    0 ≤ lerpQ x y 0.04 ∧ lerpQ x y 0.04 ≤ 1 := by
  have h : lerpQ x y 0.04 = (96 / 100) * x + (4 / 100) * y := by
    unfold lerpQ; ring
  rw [h]
  constructor <;> nlinarith

theorem frameTargets_range (g : GestureState) (rn st : Bool) :
    (frameTargets g rn st).inRange := by
  cases g <;> cases rn <;> cases st <;> decide

theorem stepRatioState_preserves (r : RatioState) (g : GestureState) (rn st : Bool)
    (h : r.inRange) : (stepRatioState r g rn st).inRange := by
  obtain ⟨h1, h2, h3, h4, h5, h6, h7, h8⟩ := h
  obtain ⟨t1, t2, t3, t4, t5, t6, t7, t8⟩ := frameTargets_range g rn st
  unfold stepRatioState RatioState.inRange
  refine ⟨?_, ?_, ?_, ?_, ?_, ?_, ?_, ?_⟩ <;>
    first
      | exact (lerpQ_bounds h1 h2 t1 t2).1
      | exact (lerpQ_bounds h1 h2 t1 t2).2
      | exact (lerpQ_bounds h3 h4 t3 t4).1
      | exact (lerpQ_bounds h3 h4 t3 t4).2
      | exact (lerpQ_bounds h5 h6 t5 t6).1
      | exact (lerpQ_bounds h5 h6 t5 t6).2
      | exact (lerpQ_bounds h7 h8 t7 t8).1
      | exact (lerpQ_bounds h7 h8 t7 t8).2

theorem foldl_stepRatioState_preserves
    (frames : List (GestureState × Bool × Bool)) :
    ∀ r : RatioState, r.inRange →
      (frames.foldl (fun r f => stepRatioState r f.1 f.2.1 f.2.2) r).inRange := by
  induction frames with
  | nil => intro r h; exact h
  | cons f fs ih =>
    intro r h
    exact ih _ (stepRatioState_preserves r f.1 f.2.1 f.2.2 h)

theorem handleGestureLogic_keeps_name (s : AppState) (n : String) :
    (handleGestureLogic s n).detectedGestureName = s.detectedGestureName := by
  unfold handleGestureLogic
  split_ifs <;> rfl

theorem vertexPosition_rain (u : ShaderUniforms) (a : VertexInput)
    (hx : 0.95 ≤ a.aRandom.x) (hr : 0 < u.uRainRatio) :
    vertexPosition u a =
      (rainOverridePos u a).add (interactOffsetTotal u (rainOverridePos u a)) := by
  have hstep : glslStep 0.95 a.aRandom.x = 1 := by
    rw [glslStep, if_neg (not_lt.mpr hx)]
  simp only [vertexPosition, hstep, one_mul, if_pos hr]

theorem rainDemo_rainPos :
    rainOverridePos rainDemoNoHand rainDemoParticle = ⟨0, 20, 0⟩ ∧
    rainOverridePos rainDemoHand rainDemoParticle = ⟨0, 20, 0⟩ := by
  have hmod : glslMod ((0:ℝ) * (15.0 + 0.5 * 10.0)) 40.0 = 0 := by
    rw [glslMod]
    norm_num
  constructor <;>
    simp_all [rainOverridePos, shaderTarget, rainDemoNoHand, rainDemoHand,
      rainDemoParticle] <;> norm_num

theorem rainDemo_offset_none :
    interactOffsetTotal rainDemoNoHand ⟨0, 20, 0⟩ = ⟨0, 0, 0⟩ := by
  simp [interactOffsetTotal, handOffset, rainDemoNoHand, Vec3.add]
  norm_num

theorem rainDemo_offset_hand :
    (interactOffsetTotal rainDemoHand ⟨0, 20, 0⟩).x = -(1323/2560) := by
  have hd : Vec3.dist ⟨0, 20, 0⟩ ⟨-1, 20, 0⟩ = 1 := by
    simp only [Vec3.dist, Vec3.sub, Vec3.length]
    norm_num [Real.sqrt_one]
  have hss : glslSmoothstep 8.0 0.0 1 = 245/256 := by
    simp only [glslSmoothstep, glslClamp]
    rw [show ((1:ℝ) - 8.0) / (0.0 - 8.0) = 7/8 by norm_num]
    rw [max_eq_left (by norm_num : (0:ℝ) ≤ 7/8),
      min_eq_left (by norm_num : (7/8:ℝ) ≤ 1)]
    norm_num
  simp only [interactOffsetTotal, handOffset, rainDemoHand]
  rw [hd]
  rw [if_pos (by norm_num : (1:ℝ) > 0.5), if_pos (by norm_num : (1:ℝ) < 8.0), hss]
  rw [if_neg (by norm_num : ¬ (0:ℝ) > 0.5)]
  simp only [Vec3.sub, Vec3.scale, Vec3.normalize, Vec3.length, Vec3.cross, Vec3.add]
  norm_num [Real.sqrt_one]

/- ============================================================
   Claim theorems
   ============================================================ -/

/-- C1 (counterexample): the claim "targetSpread = 1 if and only if the
state is SPREAD" is false at the concrete input state = SPREAD with
stormy = true: there the storm branch wins and targetSpread is 0. -/
theorem C1_counterexample :
    ¬ (((frameTargets GestureState.SPREAD false true).spread = 1) ↔
        GestureState.SPREAD = GestureState.SPREAD) := by
  decide

/-- C1 (amended): targetForm, targetRain and targetWave are as the claim
states them, but targetSpread = 1 exactly when the state is SPREAD and
stormy is false — when stormy is true the first branch forces
targetSpread to 0 even in state SPREAD. -/
theorem C1_targets_amended :
    ∀ (g : GestureState) (rn st : Bool),
      (frameTargets g rn st).form =
        (if g = GestureState.TREES ∨ st = true then 1
         else if g = GestureState.SPREAD then 1 else 0) ∧
      ((frameTargets g rn st).spread = 1 ↔ (g = GestureState.SPREAD ∧ st = false)) ∧
      ((frameTargets g rn st).rain = 1 ↔ rn = true) ∧
      ((frameTargets g rn st).wave = 1 ↔ st = true) := by
  decide

/-- C2: a classification registers only above the strict 0.5 threshold:
at score exactly 1/2 the discrete state is unchanged and the reported
label is "None"; at any score above 1/2 the raw name is reported and the
mapped effect (handleGestureLogic) is applied — concretely, "Victory" at
0.51 sets raining. -/
theorem C2_threshold :
    ∀ (s : AppState) (name : String),
      (∀ score : ℚ, score ≤ 1/2 →
        (processGestureResult s name score).gestureState = s.gestureState ∧
        (processGestureResult s name score).isRaining = s.isRaining ∧
        (processGestureResult s name score).isStormy = s.isStormy ∧
        (processGestureResult s name score).detectedGestureName = "None") ∧
      (∀ score : ℚ, 1/2 < score →
        (processGestureResult s name score).detectedGestureName = name ∧
        processGestureResult s name score =
          handleGestureLogic ⟨s.gestureState, s.isRaining, s.isStormy, name⟩ name) ∧
      (processGestureResult s "Victory" (51/100)).isRaining = true := by
  intro s name
  refine ⟨?_, ?_, ?_⟩
  · intro score hsc
    rw [processGestureResult,
      if_neg (not_lt.mpr (show score ≤ 0.5 by
        rw [show (0.5 : ℚ) = 1/2 by norm_num]; exact hsc))]
    exact ⟨rfl, rfl, rfl, rfl⟩
  · intro score hsc
    rw [processGestureResult,
      if_pos (show score > 0.5 by rw [show (0.5 : ℚ) = 1/2 by norm_num]; exact hsc)]
    exact ⟨handleGestureLogic_keeps_name _ _, rfl⟩
  · rw [processGestureResult, if_pos (by norm_num)]
    rfl

/-- C2 witness: the theorem applied at the initial state with "Victory"
at scores 1/2 and 0.51, the hypotheses score ≤ 1/2 and 1/2 < 51/100
discharged there. -/
theorem C2_threshold_witness :
    ((1/2 : ℚ) ≤ 1/2 ∧
      (processGestureResult initialAppState "Victory" (1/2)).detectedGestureName =
        "None") ∧
    ((1/2 : ℚ) < 51/100 ∧
      ((processGestureResult initialAppState "Victory" (51/100)).detectedGestureName =
          "Victory" ∧
        processGestureResult initialAppState "Victory" (51/100) =
          handleGestureLogic
            ⟨initialAppState.gestureState, initialAppState.isRaining,
              initialAppState.isStormy, "Victory"⟩ "Victory")) :=
  ⟨⟨by norm_num,
    ((C2_threshold initialAppState "Victory").1 (1/2) (by norm_num)).2.2.2⟩,
   ⟨by norm_num,
    (C2_threshold initialAppState "Victory").2.1 (51/100) (by norm_num)⟩⟩

/-- C3: raining and stormy are one-way latches — no event whose label is
not "Pointing_Up" ever clears either flag — and the concrete sequence
Victory, Thumb_Up, Pointing_Up (each at score 0.9) ends in state IDLE
with both flags false. -/
theorem C3_latch :
    (∀ (s : AppState) (name : String) (score : ℚ),
      s.isRaining = true → name ≠ "Pointing_Up" →
      (processGestureResult s name score).isRaining = true) ∧
    (∀ (s : AppState) (name : String) (score : ℚ),
      s.isStormy = true → name ≠ "Pointing_Up" →
      (processGestureResult s name score).isStormy = true) ∧
    ((processFrames initialAppState
        [("Victory", 9/10), ("Thumb_Up", 9/10), ("Pointing_Up", 9/10)]).gestureState =
          GestureState.IDLE ∧
     (processFrames initialAppState
        [("Victory", 9/10), ("Thumb_Up", 9/10), ("Pointing_Up", 9/10)]).isRaining =
          false ∧
     (processFrames initialAppState
        [("Victory", 9/10), ("Thumb_Up", 9/10), ("Pointing_Up", 9/10)]).isStormy =
          false) := by
  refine ⟨?_, ?_, ?_⟩
  · intro s name score hs hname
    unfold processGestureResult handleGestureLogic
    split_ifs <;> simp_all
  · intro s name score hs hname
    unfold processGestureResult handleGestureLogic
    split_ifs <;> simp_all
  · have h1 : processGestureResult initialAppState "Victory" (9/10) =
        ⟨GestureState.IDLE, true, false, "Victory"⟩ := by
      rw [processGestureResult, if_pos (by norm_num : (9/10 : ℚ) > 0.5)]
      rfl
    have h2 : processGestureResult ⟨GestureState.IDLE, true, false, "Victory"⟩
        "Thumb_Up" (9/10) = ⟨GestureState.IDLE, true, true, "Thumb_Up"⟩ := by
      rw [processGestureResult, if_pos (by norm_num : (9/10 : ℚ) > 0.5)]
      rfl
    have h3 : processGestureResult ⟨GestureState.IDLE, true, true, "Thumb_Up"⟩
        "Pointing_Up" (9/10) = ⟨GestureState.IDLE, false, false, "Pointing_Up"⟩ := by
      rw [processGestureResult, if_pos (by norm_num : (9/10 : ℚ) > 0.5)]
      rfl
    simp [processFrames, h1, h2, h3]

/-- C3 witness: the raining latch applied at a concrete raining state
with a "Victory" event, both hypotheses discharged there. -/
theorem C3_latch_witness :
    (⟨GestureState.IDLE, true, false, "None"⟩ : AppState).isRaining = true ∧
    "Victory" ≠ "Pointing_Up" ∧
    (processGestureResult ⟨GestureState.IDLE, true, false, "None"⟩ "Victory"
        (9/10)).isRaining = true :=
  ⟨rfl, by decide,
   C3_latch.1 ⟨GestureState.IDLE, true, false, "None"⟩ "Victory" (9/10) rfl (by decide)⟩

/-- C4: for a ratio r in [0,1] and a target t in {0,1} with r ≠ t, one
smoothing tick r ← lerp(r, t, 0.04) scales the distance to the target by
exactly 0.96 and moves r strictly toward t without overshooting. -/
theorem C4_smoothing :
    ∀ (r t : ℚ), (t = 0 ∨ t = 1) → 0 ≤ r → r ≤ 1 → r ≠ t →
      |t - lerpQ r t 0.04| = (96/100) * |t - r| ∧
      (r < t → r < lerpQ r t 0.04 ∧ lerpQ r t 0.04 < t) ∧
      (t < r → t < lerpQ r t 0.04 ∧ lerpQ r t 0.04 < r) := by
  intro r t _ _ _ hne
  have key : lerpQ r t 0.04 = t - (96/100) * (t - r) := by
    unfold lerpQ; ring
  refine ⟨?_, ?_, ?_⟩
  · rw [key]
    rw [show t - (t - 96/100 * (t - r)) = (96/100) * (t - r) by ring]
    rw [abs_mul, abs_of_pos (by norm_num : (0:ℚ) < 96/100)]
  · intro h
    constructor <;> [skip; skip] <;> rw [key] <;> linarith
  · intro h
    constructor <;> [skip; skip] <;> rw [key] <;> linarith

/-- C4 witness: the theorem applied at r = 0, t = 1, every hypothesis
discharged there. -/
theorem C4_smoothing_witness :
    ((1:ℚ) = 0 ∨ (1:ℚ) = 1) ∧ (0:ℚ) ≤ 0 ∧ (0:ℚ) ≤ 1 ∧ (0:ℚ) ≠ 1 ∧
    (|1 - lerpQ 0 1 0.04| = (96/100) * |1 - 0| ∧
     ((0:ℚ) < 1 → (0:ℚ) < lerpQ 0 1 0.04 ∧ lerpQ 0 1 0.04 < 1) ∧
     ((1:ℚ) < 0 → (1:ℚ) < lerpQ 0 1 0.04 ∧ lerpQ 0 1 0.04 < 0)) :=
  ⟨Or.inr rfl, le_refl 0, by norm_num, by norm_num,
   C4_smoothing 0 1 (Or.inr rfl) (le_refl 0) (by norm_num) (by norm_num)⟩

/-- C6 (counterexample): no clamp is applied before use — fed the
out-of-range ratio 2 in state TREES, the frame update lerps the raw 2
toward target 1 and produces 49/25 = 1.96, itself above 1, whereas
clamping the input to [0,1] first would produce exactly 1. -/
theorem C6_counterexample :
    (stepRatioState ⟨2, 0, 0, 0⟩ GestureState.TREES false false).form = 49/25 ∧
    ¬ (stepRatioState ⟨2, 0, 0, 0⟩ GestureState.TREES false false).form ≤ 1 ∧
    (stepRatioState ⟨specClamp01 2, 0, 0, 0⟩ GestureState.TREES false false).form = 1 := by
  have htg : (frameTargets GestureState.TREES false false).form = 1 := rfl
  have hcl : specClamp01 2 = 1 := by
    rw [specClamp01, min_eq_left (by norm_num), max_eq_right (by norm_num)]
  refine ⟨?_, ?_, ?_⟩
  · show lerpQ 2 (frameTargets GestureState.TREES false false).form 0.04 = 49/25
    rw [htg, lerpQ]; norm_num
  · show ¬ lerpQ 2 (frameTargets GestureState.TREES false false).form 0.04 ≤ 1
    rw [htg, lerpQ]; norm_num
  · show lerpQ (specClamp01 2) (frameTargets GestureState.TREES false false).form 0.04 = 1
    rw [htg, hcl, lerpQ]; norm_num

/-- C6 (amended): the engine performs no clamping; instead the per-frame
ratio update is total (defined for every input, raising no error) and
maps in-range ratio states to in-range ratio states, so an out-of-range
value never arises in the first place. -/
theorem C6_no_clamp_amended :
    ∀ (r : RatioState) (g : GestureState) (rn st : Bool),
      r.inRange → (stepRatioState r g rn st).inRange := by
  intro r g rn st h
  exact stepRatioState_preserves r g rn st h

/-- C6 witness: the amended theorem applied to the initial ratio state in
state TREES, the in-range hypothesis discharged there. -/
theorem C6_no_clamp_witness :
    initRatioState.inRange ∧
    (stepRatioState initRatioState GestureState.TREES false false).inRange :=
  ⟨by decide,
   C6_no_clamp_amended initRatioState GestureState.TREES false false (by decide)⟩

/-- C7: with at least one active hand, the camera's target azimuth is
the linear map avgX * (1/10) of the average x of the active hands alone
(so two hands at x = -10 and x = 10 give average 0 and target azimuth 0
whatever their y values), the updated theta lerps toward exactly that
target, and with no active hands the rig performs no update at all. -/
theorem C7_camera_azimuth :
    (∀ (hands : Hands) (g : GestureState) (delta : ℝ) (sph : Spherical),
      hands.left.active = false → hands.right.active = false →
      cameraRigUpdate hands g delta sph = sph) ∧
    (∀ hands : Hands, camTargetAzimuth hands = camAvgX hands * (1/10)) ∧
    (∀ xl yl xr yr : ℝ,
      camAvgX ⟨⟨xl, yl, true⟩, ⟨xr, yr, true⟩⟩ = (xl + xr) / 2) ∧
    (∀ y1 y2 : ℝ, camTargetAzimuth ⟨⟨-10, y1, true⟩, ⟨10, y2, true⟩⟩ = 0) ∧
    (∀ (hands : Hands) (g : GestureState) (delta : ℝ) (sph : Spherical),
      hands.left.active = true ∨ hands.right.active = true →
      (cameraRigUpdate hands g delta sph).theta =
        lerpR sph.theta (camTargetAzimuth hands) (delta * 2.0)) := by
  refine ⟨?_, ?_, ?_, ?_, ?_⟩
  · intro hands g delta sph hl hr
    rw [cameraRigUpdate, if_neg]
    rw [camHandsCount, hl, hr]
    norm_num
  · intro hands
    rw [camTargetAzimuth]
    ring
  · intro xl yl xr yr
    rw [camAvgX, camSumX, camHandsCount]
    norm_num
  · intro y1 y2
    rw [camTargetAzimuth, camAvgX, camSumX, camHandsCount]
    norm_num
  · intro hands g delta sph h
    have key : ∀ a b : Bool, a = true ∨ b = true →
        (0:ℝ) < (if a then 1 else 0) + (if b then 1 else 0) := by
      intro a b hab
      cases a <;> cases b <;> simp_all
    have hc : camHandsCount hands > 0 := by
      rw [camHandsCount]
      exact key _ _ h
    rw [cameraRigUpdate, if_pos hc]

/-- C7 witness: the theta conjunct applied at two concrete hands at
x = -10 and x = 10, the at-least-one-active hypothesis discharged
there. -/
theorem C7_camera_azimuth_witness :
    ((⟨⟨-10, 0, true⟩, ⟨10, 0, true⟩⟩ : Hands).left.active = true ∨
      (⟨⟨-10, 0, true⟩, ⟨10, 0, true⟩⟩ : Hands).right.active = true) ∧
    (cameraRigUpdate ⟨⟨-10, 0, true⟩, ⟨10, 0, true⟩⟩ GestureState.IDLE 1
        ⟨25, 0, 1⟩).theta =
      lerpR (0:ℝ) (camTargetAzimuth ⟨⟨-10, 0, true⟩, ⟨10, 0, true⟩⟩) (1 * 2.0) :=
  ⟨Or.inl rfl,
   C7_camera_azimuth.2.2.2.2 ⟨⟨-10, 0, true⟩, ⟨10, 0, true⟩⟩ GestureState.IDLE 1
     ⟨25, 0, 1⟩ (Or.inl rfl)⟩

/-- C10: when both detected hands resolve to the same handedness label,
both are written to that one slot in index order, so the later hand
overwrites the earlier one and the other slot stays inactive at
(0, 0, false); and the index-based fallback (index 0 ⇒ Left, else
Right) is used exactly when the handedness entry for the index is
missing or empty. -/
theorem C10_handedness :
    (∀ (c : String) (t0 t1 : List Category) (lm0 lm1 : Landmark),
      c = "Right" →
      trackHands (some [⟨c⟩ :: t0, ⟨c⟩ :: t1]) [lm0, lm1] =
        ⟨⟨0, 0, false⟩, ⟨(0.5 - lm1.x) * 30, (0.5 - lm1.y) * 20, true⟩⟩) ∧
    (∀ (c : String) (t0 t1 : List Category) (lm0 lm1 : Landmark),
      c ≠ "Right" →
      trackHands (some [⟨c⟩ :: t0, ⟨c⟩ :: t1]) [lm0, lm1] =
        ⟨⟨(0.5 - lm1.x) * 30, (0.5 - lm1.y) * 20, true⟩, ⟨0, 0, false⟩⟩) ∧
    (∀ (hd : List (List Category)) (i : ℕ) (cat : Category) (rest : List Category),
      i < hd.length → hd.getD i [] = cat :: rest →
      resolveHandedness (some hd) i = cat.categoryName) ∧
    (∀ (hd : List (List Category)) (i : ℕ),
      i < hd.length → hd.getD i [] = [] →
      resolveHandedness (some hd) i = (if i = 0 then "Left" else "Right")) ∧
    (∀ (hd : List (List Category)) (i : ℕ),
      hd.length ≤ i →
      resolveHandedness (some hd) i = (if i = 0 then "Left" else "Right")) ∧
    (∀ i : ℕ,
      resolveHandedness none i = (if i = 0 then "Left" else "Right")) := by
  refine ⟨?_, ?_, ?_, ?_, ?_, ?_⟩
  · intro c t0 t1 lm0 lm1 hc
    subst hc
    simp [trackHands, trackHandsAux, resolveHandedness, landmarkToHand]
  · intro c t0 t1 lm0 lm1 hc
    simp [trackHands, trackHandsAux, resolveHandedness, landmarkToHand, hc]
  · intro hd i cat rest hlen hget
    rw [resolveHandedness, if_pos hlen, hget]
  · intro hd i hlen hget
    rw [resolveHandedness, if_pos hlen, hget]
  · intro hd i hlen
    rw [resolveHandedness, if_neg (not_lt.mpr hlen)]
  · intro i
    rw [resolveHandedness]

/-- C10 witness: the same-label conjunct applied with both hands labeled
"Right" at two concrete landmarks, the label hypothesis discharged
there. -/
theorem C10_handedness_witness :
    trackHands (some [[⟨"Right"⟩], [⟨"Right"⟩]]) [⟨0, 0⟩, ⟨1/4, 1/2⟩] =
      ⟨⟨0, 0, false⟩, ⟨(0.5 - 1/4) * 30, (0.5 - 1/2) * 20, true⟩⟩ :=
  C10_handedness.1 "Right" [] [] ⟨0, 0⟩ ⟨1/4, 1/2⟩ rfl

/-- C5 (counterexample): the final position of a rain-selected particle
(first jitter 0.95, rainRatio 1) is NOT entirely determined by the rain
override: with no hand active it is the rain position (0, 20, 0), but
activating the left hand one unit away moves the same particle off that
position — the hand-interaction force is applied after, and on top of,
the rain override. -/
theorem C5_counterexample :
    vertexPosition rainDemoNoHand rainDemoParticle = ⟨0, 20, 0⟩ ∧
    vertexPosition rainDemoHand rainDemoParticle ≠ ⟨0, 20, 0⟩ := by
  have hxA : (0.95 : ℝ) ≤ rainDemoParticle.aRandom.x := by
    norm_num [rainDemoParticle]
  have hrA : (0 : ℝ) < rainDemoNoHand.uRainRatio := by norm_num [rainDemoNoHand]
  have hrB : (0 : ℝ) < rainDemoHand.uRainRatio := by norm_num [rainDemoHand]
  constructor
  · rw [vertexPosition_rain _ _ hxA hrA, rainDemo_rainPos.1, rainDemo_offset_none]
    simp [Vec3.add]
  · rw [vertexPosition_rain _ _ hxA hrB, rainDemo_rainPos.2]
    intro h
    have hx := congrArg Vec3.x h
    simp only [Vec3.add] at hx
    rw [rainDemo_offset_hand] at hx
    norm_num at hx

/-- C5 (amended): for a rain-selected particle (first jitter ≥ 0.95)
with rainRatio > 0, the final position is the rain override position
plus the hand-interaction offset evaluated at that rain position: the
rain override replaces the chaos-blend and wave layers entirely (the
chaos position and the wave ratio are irrelevant), its horizontal part
is jittered around the sway/root-morphed target column, and only the
hand-interaction force is still added on top of it. -/
theorem C5_rain_amended :
    ∀ (u : ShaderUniforms) (a : VertexInput),
      0.95 ≤ a.aRandom.x → 0 < u.uRainRatio →
      (vertexPosition u a =
        (rainOverridePos u a).add (interactOffsetTotal u (rainOverridePos u a))) ∧
      (∀ (p : Vec3) (w : ℝ),
        vertexPosition { u with uWaveRatio := w } { a with position := p } =
          (rainOverridePos u a).add (interactOffsetTotal u (rainOverridePos u a))) := by
  intro u a hx hr
  refine ⟨vertexPosition_rain u a hx hr, ?_⟩
  intro p w
  have heq : rainOverridePos { u with uWaveRatio := w } { a with position := p } =
      rainOverridePos u a := rfl
  have hoff : ∀ v : Vec3,
      interactOffsetTotal { u with uWaveRatio := w } v = interactOffsetTotal u v :=
    fun _ => rfl
  rw [vertexPosition_rain { u with uWaveRatio := w } { a with position := p } hx hr,
    heq, hoff]

/-- C5 witness: the amended theorem applied to the concrete
rain-selected demo particle with full rain and no hand, both hypotheses
discharged there. -/
theorem C5_rain_amended_witness :
    (0.95 : ℝ) ≤ rainDemoParticle.aRandom.x ∧
    (0 : ℝ) < rainDemoNoHand.uRainRatio ∧
    vertexPosition rainDemoNoHand rainDemoParticle =
      (rainOverridePos rainDemoNoHand rainDemoParticle).add
        (interactOffsetTotal rainDemoNoHand
          (rainOverridePos rainDemoNoHand rainDemoParticle)) :=
  ⟨by norm_num [rainDemoParticle], by norm_num [rainDemoNoHand],
   (C5_rain_amended rainDemoNoHand rainDemoParticle (by norm_num [rainDemoParticle])
      (by norm_num [rainDemoNoHand])).1⟩

/-- C8 (counterexample): the square-root radial sample is NOT
edge-biased relative to a uniform fill — at radius 1, the fraction of
uniform draws landing within the inner half radius is exactly the
uniform-area-fill fraction (1/2)^2 = 1/4, not less, because
sqrt-of-uniform sampling IS the uniform fill of the disk
cross-section. -/
theorem C8_counterexample :
    {u : ℝ | u ∈ Set.Icc (0:ℝ) 1 ∧ trunkRadialSample u 1 ≤ 1/2} =
      Set.Icc 0 ((1/2 : ℝ)^2) ∧
    MeasureTheory.volume (Set.Icc (0:ℝ) ((1/2 : ℝ)^2)) = ENNReal.ofReal (1/4) := by
  constructor
  · ext u
    simp only [Set.mem_setOf_eq, Set.mem_Icc, trunkRadialSample, mul_one]
    constructor
    · rintro ⟨⟨h0, _⟩, hs⟩
      refine ⟨h0, ?_⟩
      nlinarith [Real.sq_sqrt h0, Real.sqrt_nonneg u]
    · rintro ⟨h0, h1⟩
      have h1' : u ≤ 1/4 := by nlinarith
      refine ⟨⟨h0, by linarith⟩, ?_⟩
      have := Real.sqrt_le_sqrt (show u ≤ (1/2 : ℝ)^2 by nlinarith)
      rwa [Real.sqrt_sq (by norm_num : (0:ℝ) ≤ 1/2)] at this
  · rw [Real.volume_Icc]
    norm_num

/-- C8 (amended): trunk particles are sampled on a tapered cylinder
whose radius is lerped linearly from base 0.7*scale down to top
0.15*scale as a function of normalized height, and the radial coordinate
is sqrt(uniform) * radius; that sampling distributes particles with
uniform area density over the disk cross-section (radial CDF (r/R)^2),
which pushes mass outward relative to uniform-in-radius sampling
(u*R ≤ sqrt(u)*R) but is exactly a uniform fill, not a surface-biased
one. -/
theorem C8_trunk_amended :
    (∀ scale hRatio : ℝ,
      trunkRadius scale hRatio = 0.7 * scale + (0.15 * scale - 0.7 * scale) * hRatio) ∧
    (∀ scale : ℝ,
      trunkRadius scale 0 = 0.7 * scale ∧ trunkRadius scale 1 = 0.15 * scale) ∧
    (∀ scale h1 h2 : ℝ, 0 < scale → h1 < h2 →
      trunkRadius scale h2 < trunkRadius scale h1) ∧
    (∀ R r : ℝ, 0 < R → 0 ≤ r → r ≤ R →
      {u : ℝ | u ∈ Set.Icc (0:ℝ) 1 ∧ trunkRadialSample u R ≤ r} =
        Set.Icc 0 ((r/R)^2)) ∧
    (∀ u R : ℝ, 0 ≤ u → u ≤ 1 → 0 ≤ R → u * R ≤ trunkRadialSample u R) := by
  refine ⟨?_, ?_, ?_, ?_, ?_⟩
  · intro scale hRatio
    rw [trunkRadius, lerpR]; ring
  · intro scale
    constructor <;> (rw [trunkRadius, lerpR]; ring)
  · intro scale h1 h2 hs hlt
    rw [trunkRadius, trunkRadius, lerpR, lerpR]
    nlinarith
  · intro R r hR hr0 hrR
    have hrR' : r / R ≤ 1 := (div_le_one hR).mpr hrR
    have hrR0 : 0 ≤ r / R := div_nonneg hr0 hR.le
    ext u
    simp only [Set.mem_setOf_eq, Set.mem_Icc, trunkRadialSample]
    constructor
    · rintro ⟨⟨h0, _⟩, hs⟩
      have hs' : Real.sqrt u ≤ r / R := (le_div_iff₀ hR).mpr hs
      refine ⟨h0, ?_⟩
      nlinarith [Real.sq_sqrt h0, Real.sqrt_nonneg u]
    · rintro ⟨h0, h1⟩
      have hu1 : u ≤ 1 := by nlinarith
      refine ⟨⟨h0, hu1⟩, ?_⟩
      have hsq : Real.sqrt u ≤ r / R := by
        have := Real.sqrt_le_sqrt h1
        rwa [Real.sqrt_sq hrR0] at this
      calc Real.sqrt u * R ≤ (r / R) * R := by
            exact mul_le_mul_of_nonneg_right hsq hR.le
        _ = r := by field_simp
  · intro u R hu0 hu1 hR
    rw [trunkRadialSample]
    have hsu : u ≤ Real.sqrt u := by
      have hle1 : Real.sqrt u ≤ 1 := by
        have := Real.sqrt_le_sqrt hu1
        rwa [Real.sqrt_one] at this
      nlinarith [Real.sq_sqrt hu0, Real.sqrt_nonneg u]
    exact mul_le_mul_of_nonneg_right hsu hR

/-- C8 witness: the taper-monotonicity conjunct applied at scale 1
between heights 0 and 1, the hypotheses discharged there. -/
theorem C8_trunk_amended_witness :
    (0:ℝ) < 1 ∧ (0:ℝ) < 1 ∧ trunkRadius 1 1 < trunkRadius 1 0 :=
  ⟨by norm_num, by norm_num, C8_trunk_amended.2.2.1 1 0 1 (by norm_num) (by norm_num)⟩

/-- C9: all four ratio uniforms start at 0, and after any sequence of
frames (each a lerp with factor 0.04 toward a target in {0,1}) all four
remain in [0,1], so the shader never receives an out-of-range ratio even
though no explicit clamp is performed. -/
theorem C9_ratio_invariant :
    initRatioState = ⟨0, 0, 0, 0⟩ ∧
    ∀ frames : List (GestureState × Bool × Bool), (runFrames frames).inRange := by
  refine ⟨rfl, ?_⟩
  intro frames
  exact foldl_stepRatioState_preserves frames initRatioState (by decide)
